import Mathlib

/-!
Verification of the transaction synchronization and categorization engine of a
personal-finance server (Express + Firestore + Plaid).  The JavaScript source is
shallowly embedded: strings become lists of characters, Firestore documents
become structures with optional fields, the transaction collection becomes a
function from document ids to optional documents, and the provider's paged sync
protocol becomes a pre-listed stream of page responses.  Server timestamps
(`FieldValue.serverTimestamp()`) are not modelled; no claim below depends on
them.
-/

namespace PlaidFire

/-- JavaScript strings are modelled as lists of characters. -/
abbrev Str : Type := List Char

/-- Literal helper: a Lean string literal used as a modelled JS string. -/
def str (s : String) : Str := s.toList

/-- `s.toLowerCase()`. -/
def lowerStr (s : Str) : Str := s.map Char.toLower

/-- `needle` occurs at the very start of `hay`. -/
def leadsWith : Str → Str → Bool
  | [], _ => true
  | _ :: _, [] => false
  | a :: as, b :: bs => a == b && leadsWith as bs

/-- `hay.includes(needle)`: `needle` occurs contiguously somewhere in `hay`
(the empty needle always occurs, as in JavaScript). -/
def containsSub (needle : Str) : Str → Bool
  | [] => leadsWith needle []
  | c :: rest => leadsWith needle (c :: rest) || containsSub needle rest

/-- A category document as read by the categorization engine
(`{ id: doc.id, ...doc.data() }`); fields not consulted by the matching
code (amount, color, budgetId, timestamps) are omitted. -/
structure Category where
  id : Str
  name : Str
  keywords : List Str
deriving DecidableEq, Repr

/-- The search text of `findCategoryByKeywords`:
`` `${transactionName} ${merchantName || ''}`.toLowerCase() ``. -/
def searchText (tname : Str) (merchant : Option Str) : Str :=
  lowerStr (tname ++ [' '] ++ merchant.getD [])

/-- Inner loop of `findCategoryByKeywords`:
`for (const keyword of keywords) if (searchText.includes(keyword.toLowerCase())) …`. -/
def keywordMatches (st : Str) : List Str → Bool
  | [] => false
  | kw :: rest => containsSub (lowerStr kw) st || keywordMatches st rest

/-- Outer loop of `findCategoryByKeywords` over the category list, with the
source's `category.keywords && category.keywords.length > 0` guard. -/
def findCatByKw (st : Str) : List Category → Option Category
  | [] => none
  | c :: rest =>
    if c.keywords.length > 0 && keywordMatches st c.keywords then some c
    else findCatByKw st rest

/-- `findCategoryByKeywords(transactionName, merchantName)` from
`src/server/server.js` (identical copies exist in the sync route and in
`recategorizeAllTransactions`). -/
def findCategoryByKeywords (cats : List Category) (tname : Str)
    (merchant : Option Str) : Option Category :=
  findCatByKw (searchText tname merchant) cats

/-- The fixed `plaidMappings` object of `findCategoryByPlaidCategory`,
in its source enumeration order. -/
def plaidMappings : List (Str × List Str) :=
  [ (str "FOOD_AND_DRINK", [str "food", str "restaurant", str "dining", str "grocery"]),
    (str "TRANSPORTATION", [str "gas", str "uber", str "lyft", str "transit", str "parking"]),
    (str "ENTERTAINMENT", [str "movie", str "theater", str "concert", str "game"]),
    (str "SHOPPING", [str "amazon", str "store", str "retail", str "mall"]),
    (str "BILLS_AND_UTILITIES", [str "utility", str "electric", str "water", str "internet", str "phone"]),
    (str "HEALTHCARE", [str "medical", str "doctor", str "pharmacy", str "hospital"]),
    (str "EDUCATION", [str "school", str "tuition", str "book", str "course"]),
    (str "TRAVEL", [str "hotel", str "flight", str "vacation", str "trip"]) ]

/-- `keywords.some(k => keyword.toLowerCase().includes(k))`, folded over a
category's keyword list: some keyword of the category contains some generic
sub-keyword of the bucket as a substring. -/
def bucketKeywordHit (bucket : List Str) (kws : List Str) : Bool :=
  kws.any fun kw => bucket.any fun k => containsSub k (lowerStr kw)

/-- Category scan of `findCategoryByPlaidCategory` for one matched bucket,
with the `keywords.length > 0` guard of the source. -/
def findCatByBucket (bucket : List Str) : List Category → Option Category
  | [] => none
  | c :: rest =>
    if c.keywords.length > 0 && bucketKeywordHit bucket c.keywords then some c
    else findCatByBucket bucket rest

/-- Loop of `findCategoryByPlaidCategory` over `Object.entries(plaidMappings)`:
buckets whose label occurs in `pfCategory` are tried in order; a bucket with no
category hit falls through to the next bucket. -/
def findByPlaidLoop (cats : List Category) (pf : Str) :
    List (Str × List Str) → Option Category
  | [] => none
  | (label, bucket) :: rest =>
    if containsSub label pf then
      match findCatByBucket bucket cats with
      | some c => some c
      | none => findByPlaidLoop cats pf rest
    else findByPlaidLoop cats pf rest

/-- `findCategoryByPlaidCategory(pfCategory)` from `src/server/server.js`;
`if (!pfCategory) return null` makes both a missing and an empty label yield
no match. -/
def findCategoryByPlaidCategory (cats : List Category) (pf : Option Str) :
    Option Category :=
  match pf with
  | none => none
  | some p => if p.isEmpty then none else findByPlaidLoop cats p plaidMappings

/-- A transaction as delivered by the provider's sync primitive
(the fields the sync route reads from each element of `added`/`modified`).
`amount` is the provider's native amount in major units; JavaScript numbers
are idealized as rationals (IEEE floating point is not modelled). -/
structure PlaidTx where
  transaction_id : Str
  account_id : Str
  date : Str
  name : Str
  merchant_name : Option Str
  city : Option Str
  amount : ℚ
  iso_currency_code : Option Str
  pending : Bool
  pf_primary : Option Str
deriving DecidableEq, Repr

/-- JavaScript `x || null` on an optional string: both a missing value and the
empty string collapse to null. -/
def normOpt : Option Str → Option Str
  | none => none
  | some s => if s.isEmpty then none else some s

/-- Category chosen for a synced transaction: keyword match first, provider
category fallback only when that yields nothing
(`if (!assignedCategory) assignedCategory = findCategoryByPlaidCategory(…)`). -/
def syncAssign (cats : List Category) (t : PlaidTx) : Option Category :=
  match findCategoryByKeywords cats t.name t.merchant_name with
  | some c => some c
  | none => findCategoryByPlaidCategory cats t.pf_primary

/-- The `data` object the sync route writes for one added/modified
transaction (the `updatedAt` server timestamp is not modelled). -/
structure SyncData where
  transaction_id : Str
  account_id : Str
  date : Str
  name : Str
  merchant_name : Str
  city : Str
  amount : ℚ
  outflow : Option ℚ
  inflow : Option ℚ
  currency : Str
  pending : Bool
  pf_category : Option Str
  category : Option Str
  categoryName : Option Str
deriving DecidableEq, Repr

/-- Builds the sync route's `data` object from a provider transaction:
`amount: t.amount * 100`, `outflow = t.amount > 0 ? t.amount * 100 : null`,
`inflow = t.amount < 0 ? -t.amount * 100 : null`, category fields from
`syncAssign` with `x || null` normalization. -/
def mkSyncData (cats : List Category) (t : PlaidTx) : SyncData :=
  let assigned := syncAssign cats t
  { transaction_id := t.transaction_id
    account_id := t.account_id
    date := t.date
    name := t.name
    merchant_name := t.merchant_name.getD []
    city := t.city.getD []
    amount := t.amount * 100
    outflow := if 0 < t.amount then some (t.amount * 100) else none
    inflow := if t.amount < 0 then some (-t.amount * 100) else none
    currency := t.iso_currency_code.getD []
    pending := t.pending
    pf_category := normOpt t.pf_primary
    category := normOpt (assigned.map fun c => c.id)
    categoryName := normOpt (assigned.map fun c => c.name) }

/-- A persisted transaction document.  Every field is optional: a merge-set
only touches the fields present in the written object, so a document may lack
any of them (a field written as JavaScript `null` is identified with an absent
field; the code never distinguishes the two when reading). -/
structure TxDoc where
  transaction_id : Option Str
  account_id : Option Str
  date : Option Str
  name : Option Str
  merchant_name : Option Str
  city : Option Str
  amount : Option ℚ
  outflow : Option ℚ
  inflow : Option ℚ
  currency : Option Str
  pending : Option Bool
  pf_category : Option Str
  category : Option Str
  categoryName : Option Str
  removed : Option Bool
deriving DecidableEq, Repr

/-- The per-user transaction collection, keyed by document id. -/
def TxStore : Type := Str → Option TxDoc

/-- `batch.set(ref, data, { merge: true })` for the sync `data` object: all of
its fields are written; only `removed` (never part of `data`) survives from
the old document. -/
def mergeSync (old : Option TxDoc) (d : SyncData) : TxDoc :=
  { transaction_id := some d.transaction_id
    account_id := some d.account_id
    date := some d.date
    name := some d.name
    merchant_name := some d.merchant_name
    city := some d.city
    amount := some d.amount
    outflow := d.outflow
    inflow := d.inflow
    currency := some d.currency
    pending := some d.pending
    pf_category := d.pf_category
    category := d.category
    categoryName := d.categoryName
    removed := match old with
      | some o => o.removed
      | none => none }

/-- Write the sync `data` object at `txCol(uid).doc(d.transaction_id)`. -/
def putTxData (s : TxStore) (d : SyncData) : TxStore :=
  fun k => if d.transaction_id = k then some (mergeSync (s d.transaction_id) d) else s k

/-- One upsert of the sync route's added/modified loop. -/
def upsertTx (cats : List Category) (s : TxStore) (t : PlaidTx) : TxStore :=
  putTxData s (mkSyncData cats t)

/-- The sync route's `for (const t of [...added, ...modified])` loop. -/
def applyUpserts (cats : List Category) : TxStore → List PlaidTx → TxStore
  | s, [] => s
  | s, t :: ts => applyUpserts cats (upsertTx cats s t) ts

/-- `batch.set(ref, { removed: true, … }, { merge: true })` applied to the
current document at the id: an existing document keeps every other field; a
missing document is created holding only the removed flag. -/
def applyRemovedMark : Option TxDoc → TxDoc
  | some o => { o with removed := some true }
  | none =>
    { transaction_id := none, account_id := none, date := none, name := none
      merchant_name := none, city := none, amount := none, outflow := none
      inflow := none, currency := none, pending := none, pf_category := none
      category := none, categoryName := none, removed := some true }

/-- One iteration of the sync route's `for (const r of removed)` loop. -/
def markRemovedOne (s : TxStore) (id : Str) : TxStore :=
  fun k => if id = k then some (applyRemovedMark (s id)) else s k

/-- The whole removed-marker loop. -/
def applyRemovedList : TxStore → List Str → TxStore
  | s, [] => s
  | s, id :: ids => applyRemovedList (markRemovedOne s id) ids

/-- The per-user access-credential document (`tokensDoc(uid)`); `lastSyncAt`
is a server timestamp and is not modelled. -/
structure TokenDoc where
  access_token : Str
  cursor : Option Str
deriving DecidableEq, Repr

/-- Per-user state touched by the sync route. -/
structure SyncState where
  tokens : Option TokenDoc
  txs : TxStore

/-- One provider response of `plaidClient.transactionsSync`; the `removed`
list carries objects read only through `.transaction_id`. -/
structure Page where
  added : List PlaidTx
  modified : List PlaidTx
  removed : List Str
  next_cursor : Str
  has_more : Bool
deriving Repr

/-- Error outcomes of the sync route. -/
inductive SyncErr
  /-- `tokensDoc` missing: the route answers 400 "Bank not linked". -/
  | notLinked
  /-- A provider call threw: the route's catch answers 500. -/
  | upstream
deriving DecidableEq, Repr

/-- The `while (true)` paging loop.  The provider is modelled as the stream of
responses its successive calls would return (each call either a page or a
thrown error); running out of stream while `has_more` holds stands for a
failing provider call.  Accumulates `added`, `modified`, `removed` across
pages and ends with the final `next_cursor`. -/
def syncLoop : (List PlaidTx × List PlaidTx × List Str) → List (Except SyncErr Page) →
    Except SyncErr (List PlaidTx × List PlaidTx × List Str × Str)
  | _, [] => .error .upstream
  | _, .error e :: _ => .error e
  | (a, m, r), .ok pg :: rest =>
    let acc := (a ++ pg.added, m ++ pg.modified, r ++ pg.removed)
    if pg.has_more then syncLoop acc rest
    else .ok (acc.1, acc.2.1, acc.2.2, pg.next_cursor)

/-- One write queued on the route's single Firestore batch. -/
inductive WriteOp
  /-- `batch.set(txCol.doc(d.transaction_id), d, { merge: true })`. -/
  | putTx : SyncData → WriteOp
  /-- `batch.set(txCol.doc(id), { removed: true, … }, { merge: true })`. -/
  | putRemoved : Str → WriteOp
  /-- `batch.set(tokensDoc, { cursor, lastSyncAt }, { merge: true })`. -/
  | putCursor : Str → WriteOp
deriving DecidableEq, Repr

/-- Merge `{ cursor: c, … }` into the token document (creating it with an
empty access token if absent, as a Firestore merge-set would). -/
def putCursorTok (t : Option TokenDoc) (c : Str) : Option TokenDoc :=
  match t with
  | some tok => some { tok with cursor := some c }
  | none => some { access_token := [], cursor := some c }

/-- Apply one queued write to the state. -/
def applyOp (s : SyncState) : WriteOp → SyncState
  | .putTx d => { s with txs := putTxData s.txs d }
  | .putRemoved id => { s with txs := markRemovedOne s.txs id }
  | .putCursor c => { s with tokens := putCursorTok s.tokens c }

/-- `batch.commit()`: all queued writes land together. -/
def applyBatch : SyncState → List WriteOp → SyncState
  | s, [] => s
  | s, op :: ops => applyBatch (applyOp s op) ops

/-- The full contents of the sync route's batch: one merge-set per
added/modified transaction, one removed marker per removed id, and the cursor
write — in queueing order. -/
def buildSyncBatch (cats : List Category) (added modified : List PlaidTx)
    (removedIds : List Str) (cursor : Str) : List WriteOp :=
  (added ++ modified).map (fun t => .putTx (mkSyncData cats t))
    ++ removedIds.map .putRemoved ++ [.putCursor cursor]

/-- Counts in the sync route's success response (the `recategorized` count of
the subsequent full reconciliation is modelled separately, see
`recategorizeAllTransactions`). -/
structure SyncCounts where
  added : ℕ
  modified : ℕ
  removed : ℕ
deriving DecidableEq, Repr

/-- `POST /sync-transactions` up to and including its `batch.commit()`:
result, post-commit state, and the list of committed batches (the route uses
exactly one batch; a failed run commits nothing).  The subsequent
`recategorizeAllTransactions` call runs as a separate later commit and is
modelled independently. -/
def syncTransactionsRoute (cats : List Category) (pages : List (Except SyncErr Page))
    (s : SyncState) : Except SyncErr SyncCounts × SyncState × List (List WriteOp) :=
  match s.tokens with
  | none => (.error .notLinked, s, [])
  | some _ =>
    match syncLoop ([], [], []) pages with
    | .error e => (.error e, s, [])
    | .ok (a, m, r, cur) =>
      let b := buildSyncBatch cats a m r cur
      (.ok ⟨a.length, m.length, r.length⟩, applyBatch s b, [b])

/-- A transaction document as read back by `recategorizeAllTransactions`
(`{ id: doc.id, ...doc.data() }`); only the fields that routine consults and
writes are modelled. -/
structure TxRecord where
  id : Str
  name : Str
  merchant_name : Option Str
  pf_category : Option Str
  category : Option Str
  categoryName : Option Str
deriving DecidableEq, Repr

/-- Truthiness of an optional string (`transaction.pf_category &&`). -/
def truthy : Option Str → Bool
  | none => false
  | some s => !s.isEmpty

/-- Category recomputed by `recategorizeAllTransactions` for one stored
transaction: keyword match first, then — only if that failed and
`transaction.pf_category` is truthy — the provider-category fallback. -/
def recatAssign (cats : List Category) (tx : TxRecord) : Option Category :=
  match findCategoryByKeywords cats tx.name tx.merchant_name with
  | some c => some c
  | none =>
    if truthy tx.pf_category then findCategoryByPlaidCategory cats tx.pf_category
    else none

/-- Body of the reconciliation loop for one transaction: compare
`transaction.category || null` with `assignedCategory?.id || null` and update
(batch write counted) only when they differ. -/
def recatOne (cats : List Category) (tx : TxRecord) : Bool × TxRecord :=
  let assigned := recatAssign cats tx
  let currentId := normOpt tx.category
  let newId := normOpt (assigned.map fun c => c.id)
  if currentId = newId then (false, tx)
  else (true, { tx with category := newId,
                        categoryName := normOpt (assigned.map fun c => c.name) })

/-- `recategorizeAllTransactions(uid)` over an in-memory snapshot: returns the
`updated` count and the transaction list after the batch commit. -/
def recategorizeAllTransactions (cats : List Category) :
    List TxRecord → ℕ × List TxRecord
  | [] => (0, [])
  | tx :: rest =>
    ((if (recatOne cats tx).1 then 1 else 0) + (recategorizeAllTransactions cats rest).1,
     (recatOne cats tx).2 :: (recategorizeAllTransactions cats rest).2)

/-- Leading decimal digits of a string, as a natural number (`none` when the
string does not start with a digit). -/
def parseDigits (s : Str) : Option ℕ :=
  let ds := s.takeWhile Char.isDigit
  if ds.isEmpty then none
  else some (ds.foldl (fun acc c => acc * 10 + (c.toNat - 48)) 0)

/-- JavaScript `parseInt` on a decimal string: optional sign, then the leading
run of digits; everything after the first non-digit (e.g. a decimal point) is
discarded; `none` models `NaN`. -/
def jsParseInt : Str → Option ℤ
  | '-' :: rest => (parseDigits rest).map fun n => -(n : ℤ)
  | '+' :: rest => (parseDigits rest).map fun n => (n : ℤ)
  | s => (parseDigits s).map fun n => (n : ℤ)

/-- Body of `PUT /transactions/:transactionId`.  A `none` field was absent from
the request (`!== undefined`).  `amount` arrives as the raw request value,
modelled by its string form since the route applies `parseInt` to it.  For
`category`, the inner option distinguishes a null/empty (falsy) value from a
category id. -/
structure EditBody where
  name : Option Str
  merchant_name : Option Str
  amount : Option Str
  date : Option Str
  category : Option (Option Str)
deriving DecidableEq, Repr

/-- The `updateData` of the edit route applied to the existing document:
each provided field overwrites the stored one; `amount` becomes
`parseInt(amount)` — no unit conversion; a truthy `category` also refreshes
`categoryName` from the category document when that document exists. -/
def editUpdateDoc (cats : List Category) (d : TxDoc) (b : EditBody) : TxDoc :=
  let d1 := match b.name with
    | some v => { d with name := some v }
    | none => d
  let d2 := match b.merchant_name with
    | some v => { d1 with merchant_name := some v }
    | none => d1
  let d3 := match b.amount with
    | some v => { d2 with amount := (jsParseInt v).map fun i => (i : ℚ) }
    | none => d2
  let d4 := match b.date with
    | some v => { d3 with date := some v }
    | none => d3
  match b.category with
  | none => d4
  | some v =>
    match v with
    | some cid =>
      if cid.isEmpty then { d4 with category := some cid, categoryName := none }
      else
        match cats.find? fun c => decide (c.id = cid) with
        | some c => { d4 with category := some cid, categoryName := some c.name }
        | none => { d4 with category := some cid }
    | none => { d4 with category := none, categoryName := none }

/-- `PUT /transactions/:transactionId`: 404 leaves the store untouched,
otherwise the updated document replaces the stored one and is echoed back. -/
def editTransactionRoute (cats : List Category) (store : TxStore) (id : Str)
    (b : EditBody) : Option TxDoc × TxStore :=
  match store id with
  | none => (none, store)
  | some d =>
    let d' := editUpdateDoc cats d b
    (some d', fun k => if id = k then some d' else store k)

/-- A budget document (timestamps not modelled). -/
structure BudgetDoc where
  name : Str
deriving DecidableEq, Repr

/-- A category payload supplied in the `POST /budgets` body (the fields the
client sends; they are spread into the created document). -/
structure NewCategoryBody where
  name : Str
  amount : ℚ
  keywords : List Str
deriving DecidableEq, Repr

/-- A stored category document created by `POST /budgets`. -/
structure BudgetCatDoc where
  payload : NewCategoryBody
  budgetId : Str
deriving DecidableEq, Repr

/-- Per-user state touched by the budget routes. -/
structure BudgetState where
  budgets : List (Str × BudgetDoc)
  categories : List (Str × BudgetCatDoc)
deriving DecidableEq, Repr

/-- Response of `POST /budgets`. -/
inductive BudgetResp
  /-- 400 "User can only have one budget for now". -/
  | conflict
  /-- the created budget's id. -/
  | created : Str → BudgetResp
deriving DecidableEq, Repr

/-- Pair each category payload with a fresh auto-generated document id. -/
def mkBudgetCats (budgetId : Str) : List Str → List NewCategoryBody →
    List (Str × BudgetCatDoc)
  | _, [] => []
  | [], _ :: _ => []
  | i :: is, c :: cs => (i, ⟨c, budgetId⟩) :: mkBudgetCats budgetId is cs

/-- `POST /budgets`: rejected up front when the user already has any budget;
otherwise one budget document plus one category document per payload are
created (`freshB`/`freshC` stand for Firestore's auto-generated ids). -/
def createBudgetRoute (s : BudgetState) (freshB : Str) (freshC : List Str)
    (bodyName : Str) (bodyCats : List NewCategoryBody) : BudgetResp × BudgetState :=
  if s.budgets.isEmpty then
    (.created freshB,
     { budgets := s.budgets ++ [(freshB, ⟨bodyName⟩)]
       categories := s.categories ++ mkBudgetCats freshB freshC bodyCats })
  else (.conflict, s)

/-- An account document (only identity matters to the delete route). -/
structure AcctDoc where
  name : Str
deriving DecidableEq, Repr

/-- A stored transaction as seen by the account-delete route: its
`account_id` plus an arbitrary payload standing for all other fields. -/
structure TxLite where
  account_id : Str
  name : Str
deriving DecidableEq, Repr

/-- Per-user state touched by `DELETE /accounts/:accountId`; collections are
finite document lists keyed by document id. -/
structure AcctState where
  accounts : List (Str × AcctDoc)
  txs : List (Str × TxLite)
deriving DecidableEq, Repr

/-- One delete written by the route. -/
inductive DelOp
  | delTx : Str → DelOp
  | delAcct : Str → DelOp
deriving DecidableEq, Repr

/-- Apply one delete: the document with that id disappears. -/
def applyDelOp (s : AcctState) : DelOp → AcctState
  | .delTx id => { s with txs := s.txs.filter fun p => decide (¬p.1 = id) }
  | .delAcct id => { s with accounts := s.accounts.filter fun p => decide (¬p.1 = id) }

/-- One committed batch of deletes. -/
def applyDelBatch : AcctState → List DelOp → AcctState
  | s, [] => s
  | s, op :: ops => applyDelBatch (applyDelOp s op) ops

/-- Successive commits. -/
def applyDelCommits : AcctState → List (List DelOp) → AcctState
  | s, [] => s
  | s, b :: bs => applyDelCommits (applyDelBatch s b) bs

/-- `collection.doc(id).get()` over a snapshot list. -/
def lookupDoc {α : Type} (l : List (Str × α)) (id : Str) : Option α :=
  (l.find? fun p => decide (p.1 = id)).map fun p => p.2

/-- Response of `DELETE /accounts/:accountId`. -/
inductive DelResp
  | notFound
  | deleted : Bool → DelResp
deriving DecidableEq, Repr

/-- `DELETE /accounts/:accountId`: when the account exists and
`deleteTransactions` is set, the transactions whose `account_id` matches are
deleted in one committed batch, and the account document is then deleted by a
separate, second write; the route reports the commits it performed. -/
def deleteAccountRoute (s : AcctState) (accountId : Str)
    (deleteTransactions : Bool) : DelResp × AcctState × List (List DelOp) :=
  match lookupDoc s.accounts accountId with
  | none => (.notFound, s, [])
  | some _ =>
    let txMatches := s.txs.filter fun p => decide (p.2.account_id = accountId)
    let commits :=
      (if deleteTransactions then [txMatches.map fun p => DelOp.delTx p.1] else [])
        ++ [[DelOp.delAcct accountId]]
    (.deleted deleteTransactions, applyDelCommits s commits, commits)

/-- Spec-side statement of keyword matching, following the specification's
words: return the first category (in stored enumeration order) one of whose
keywords occurs as a case-insensitive substring of the search string built
from name and merchant name. -/
def specFirstMatch (cats : List Category) (tname : Str) (merchant : Option Str) :
    Option Category :=
  cats.find? fun c =>
    c.keywords.any fun kw => containsSub (lowerStr kw) (searchText tname merchant)

/-- The last element of the list carrying the given transaction id, if any
(the last merge-set to a document id wins on fields both writes carry). -/
def lastWith : List PlaidTx → Str → Option PlaidTx
  | [], _ => none
  | t :: ts, k =>
    match lastWith ts k with
    | some u => some u
    | none => if t.transaction_id = k then some t else none

/-- A document holding nothing but the removed flag — what the sync
removed-marker merge creates at an id with no existing document. -/
def removedOnlyDoc : TxDoc :=
  { transaction_id := none, account_id := none, date := none, name := none
    merchant_name := none, city := none, amount := none, outflow := none
    inflow := none, currency := none, pending := none, pf_category := none
    category := none, categoryName := none, removed := some true }

/-! Concrete fixtures used by counterexamples and witnesses. -/

/-- C1 fixture: a category after a rename (keywords unchanged). -/
def renamedCat : Category := ⟨str "c1", str "Groceries", [str "foo"]⟩

/-- C1 fixture: a transaction assigned to `renamedCat` before the rename,
still carrying the old denormalized name. -/
def staleTx : TxRecord :=
  ⟨str "t1", str "foo mart", none, none, some (str "c1"), some (str "Food")⟩

/-- C2/C6 fixture: a linked credential with no cursor yet. -/
def tok0 : TokenDoc := ⟨str "tokA", none⟩

/-- An empty transaction collection. -/
def emptyTxStore : TxStore := fun _ => none

/-- C2 fixture: linked state with an empty transaction collection. -/
def s0 : SyncState := ⟨some tok0, emptyTxStore⟩

/-- C2 fixture: one provider transaction. -/
def ptx0 : PlaidTx :=
  ⟨str "t1", str "a1", str "2024-01-02", str "Coffee", none, none, 4, none, false, none⟩

/-- C2 fixture: a final page carrying one added transaction and one removed id. -/
def page0 : Page := ⟨[ptx0], [], [str "r1"], str "cur1", false⟩

/-- C2 fixture: a first page that reports more to come. -/
def pageMore : Page := ⟨[ptx0], [], [], str "curX", true⟩

/-- C2 fixture: the provider fails on the second page request, mid-loop. -/
def pagesFail : List (Except SyncErr Page) := [.ok pageMore, .error .upstream]

/-- C2 fixture: a single successful page. -/
def pagesOk : List (Except SyncErr Page) := [.ok page0]

/-- C3 fixture: category "A" with keyword "foo". -/
def catA : Category := ⟨str "idA", str "A", [str "foo"]⟩

/-- C3 fixture: category "B" with keywords "foo", "bar". -/
def catB : Category := ⟨str "idB", str "B", [str "foo", str "bar"]⟩

/-- C4 fixture: a user category holding keyword "restaurant". -/
def diningCat : Category := ⟨str "cDine", str "Dining", [str "restaurant"]⟩

/-- C4 fixture: no keyword hit, provider category FOOD_AND_DRINK. -/
def foodTx : PlaidTx :=
  ⟨str "t2", str "a1", str "2024-01-03", str "xyz", none, none, 3, none, false,
   some (str "FOOD_AND_DRINK")⟩

/-- C4 fixture: matches neither keywords nor any provider bucket. -/
def incomeTx : PlaidTx :=
  ⟨str "t3", str "a1", str "2024-01-04", str "xyz", none, none, 3, none, false,
   some (str "INCOME")⟩

/-- C4 witness fixture: a transaction with a direct keyword hit. -/
def kwTx : PlaidTx :=
  ⟨str "t4", str "a1", str "2024-01-05", str "Restaurant Lunch", none, none, 3,
   none, false, some (str "TRAVEL")⟩

/-- C7 fixture: a provider transaction of 12.5 native units. -/
def provTx : PlaidTx :=
  ⟨str "t1", str "a1", str "2024-01-02", str "Lunch", none, none, 25/2, none,
   false, none⟩

/-- C7 fixture: a provider transaction with three decimal places. -/
def provTx3 : PlaidTx :=
  ⟨str "t5", str "a1", str "2024-01-02", str "Fuel", none, none, 2469/200, none,
   false, none⟩

/-- C7 fixture: the store right after syncing `provTx`. -/
def syncedStore7 : TxStore := putTxData emptyTxStore (mkSyncData [] provTx)

/-- C7 fixture: an edit request resubmitting the provider's native amount. -/
def editBody7 : EditBody := ⟨none, none, some (str "12.5"), none, none⟩

/-- C8 fixture: a user who already has a budget. -/
def s8 : BudgetState := ⟨[(str "b1", ⟨str "My Budget"⟩)], []⟩

/-- C9 fixture: one account with one matching and one unrelated transaction. -/
def s9 : AcctState :=
  ⟨[(str "a1", ⟨str "Checking"⟩)],
   [(str "t1", ⟨str "a1", str "x"⟩), (str "t2", ⟨str "a2", str "y"⟩)]⟩

/-- C10 witness fixture: an existing transaction document. -/
def doc10 : TxDoc :=
  { transaction_id := some (str "t1"), account_id := some (str "a1")
    date := some (str "2024-01-01"), name := some (str "Shop")
    merchant_name := none, city := none, amount := some 500, outflow := some 500
    inflow := none, currency := some (str "USD"), pending := some false
    pf_category := none, category := none, categoryName := none, removed := none }

/-- C10 witness fixture: a store holding only `doc10` at id "t1". -/
def st10 : TxStore := fun k => if k = str "t1" then some doc10 else none

/-! Theorems. -/

theorem keywordMatches_eq_any (st : Str) (kws : List Str) :
    keywordMatches st kws = kws.any fun kw => containsSub (lowerStr kw) st := by
  induction kws with
  | nil => rfl
  | cons kw rest ih => simp [keywordMatches, ih, List.any_cons]

theorem findCatByKw_eq_find? (st : Str) (cats : List Category) :
    findCatByKw st cats
      = cats.find? fun c => c.keywords.any fun kw => containsSub (lowerStr kw) st := by
  induction cats with
  | nil => rfl
  | cons c rest ih =>
    rw [findCatByKw, List.find?_cons, ih, keywordMatches_eq_any]
    cases h : c.keywords with
    | nil => simp [h]
    | cons k ks =>
      cases hb : containsSub (lowerStr k) st <;>
        cases hb2 : ks.any (fun kw => containsSub (lowerStr kw) st) <;>
          simp [hb, hb2, List.any_cons]

/-- C3: keyword matching lowercases `name + " " + (merchant_name || "")`,
walks the categories in stored order and each category's keywords in stored
order, and returns the first category one of whose keywords is a
case-insensitive substring of the search text; with categories
`[{A, ["foo"]}, {B, ["foo","bar"]}]` and a transaction named "foobar" the
result is category A. -/
theorem c3_keyword_first_match :
    (∀ cats tname merchant,
       findCategoryByKeywords cats tname merchant = specFirstMatch cats tname merchant)
    ∧ findCategoryByKeywords [catA, catB] (str "foobar") none = some catA := by
  constructor
  · intro cats tname merchant
    rw [findCategoryByKeywords, specFirstMatch, findCatByKw_eq_find?]
  · decide

/-- C1 fails on the code: reconciliation updates a transaction only when the
recomputed category id differs from the stored one, so after a pure rename
(same id, same keywords) the stored `categoryName` keeps the old name.  On
the concrete fixture the run reports zero updates and leaves the stale name
in place even though the transaction references `renamedCat`. -/
theorem c1_rename_stale_categoryName :
    recategorizeAllTransactions [renamedCat] [staleTx] = (0, [staleTx])
    ∧ staleTx.category = some renamedCat.id
    ∧ ¬staleTx.categoryName = some renamedCat.name := by decide

theorem findCatByBucket_eq_find? (bucket : List Str) (cats : List Category) :
    findCatByBucket bucket cats
      = cats.find? fun c =>
          c.keywords.any fun kw => bucket.any fun k => containsSub k (lowerStr kw) := by
  induction cats with
  | nil => rfl
  | cons c rest ih =>
    rw [findCatByBucket, List.find?_cons, ih, bucketKeywordHit]
    cases h : c.keywords with
    | nil => simp [h]
    | cons k ks =>
      cases hb : ((k :: ks).any fun kw => bucket.any fun b => containsSub b (lowerStr kw)) <;>
        simp [hb]

/-- C4: the provider-category fallback runs only when keyword matching found
nothing; within a matched bucket the first user category one of whose
keywords contains a bucket sub-keyword as a substring wins; a transaction
with no keyword hit and provider category FOOD_AND_DRINK lands in the user
category carrying keyword "restaurant", and a transaction matching neither
keywords nor any bucket stays uncategorized. -/
theorem c4_provider_fallback :
    (∀ cats t c, findCategoryByKeywords cats t.name t.merchant_name = some c →
       syncAssign cats t = some c)
    ∧ (∀ cats t, findCategoryByKeywords cats t.name t.merchant_name = none →
       syncAssign cats t = findCategoryByPlaidCategory cats t.pf_primary)
    ∧ (∀ bucket cats, findCatByBucket bucket cats
         = cats.find? fun c =>
             c.keywords.any fun kw => bucket.any fun k => containsSub k (lowerStr kw))
    ∧ syncAssign [diningCat] foodTx = some diningCat
    ∧ syncAssign [diningCat] incomeTx = none := by
  refine ⟨?_, ?_, findCatByBucket_eq_find?, by decide, by decide⟩
  · intro cats t c h
    rw [syncAssign, h]
  · intro cats t h
    rw [syncAssign, h]

/-- Discharges the hypotheses of the first two parts of `c4_provider_fallback`
at concrete inputs: a direct keyword hit short-circuits the fallback, and a
keyword miss hands over to the provider-category fallback. -/
theorem c4_provider_fallback_witness :
    syncAssign [diningCat] kwTx = some diningCat
    ∧ syncAssign [diningCat] foodTx
        = findCategoryByPlaidCategory [diningCat] foodTx.pf_primary :=
  ⟨c4_provider_fallback.1 [diningCat] kwTx diningCat (by decide),
   c4_provider_fallback.2.1 [diningCat] foodTx (by decide)⟩

theorem normOpt_idem (o : Option Str) : normOpt (normOpt o) = normOpt o := by
  cases o with
  | none => rfl
  | some s =>
    rw [normOpt]
    split <;> simp [normOpt, *]

theorem recatAssign_update (cats : List Category) (tx : TxRecord)
    (c n : Option Str) :
    recatAssign cats { tx with category := c, categoryName := n }
      = recatAssign cats tx := rfl

theorem recatOne_stable (cats : List Category) (tx : TxRecord) :
    recatOne cats (recatOne cats tx).2 = (false, (recatOne cats tx).2) := by
  by_cases h : normOpt tx.category = normOpt ((recatAssign cats tx).map fun c => c.id)
  · have h2 : recatOne cats tx = (false, tx) := by rw [recatOne, if_pos h]
    rw [h2]
    exact h2
  · have h2 : recatOne cats tx
        = (true, { tx with
            category := normOpt ((recatAssign cats tx).map fun c => c.id)
            categoryName := normOpt ((recatAssign cats tx).map fun c => c.name) }) := by
      rw [recatOne, if_neg h]
    rw [h2, recatOne, recatAssign_update]
    exact if_pos (normOpt_idem _)

/-- C5: full reconciliation is idempotent — with categories and transactions
unchanged, a second `recategorizeAllTransactions` recomputes the same
category id for every transaction and therefore reports zero updates. -/
theorem c5_reconcile_idempotent (cats : List Category) (txs : List TxRecord) :
    (recategorizeAllTransactions cats (recategorizeAllTransactions cats txs).2).1 = 0 := by
  induction txs with
  | nil => rfl
  | cons tx rest ih =>
    have h1 := congrArg Prod.fst (recatOne_stable cats tx)
    simp only [recategorizeAllTransactions] at ih ⊢
    rw [h1]
    simpa using ih

theorem mergeSync_collapse (o : Option TxDoc) (d1 d2 : SyncData) :
    mergeSync (some (mergeSync o d1)) d2 = mergeSync o d2 := by
  cases o <;> rfl

theorem applyUpserts_apply (cats : List Category) (L : List PlaidTx) :
    ∀ (s : TxStore) (k : Str),
      applyUpserts cats s L k
        = match lastWith L k with
          | none => s k
          | some t => some (mergeSync (s k) (mkSyncData cats t)) := by
  induction L with
  | nil => intro s k; rfl
  | cons t ts ih =>
    intro s k
    rw [applyUpserts, ih]
    cases hl : lastWith ts k with
    | some u =>
      have : lastWith (t :: ts) k = some u := by rw [lastWith, hl]
      rw [this]
      by_cases hk : t.transaction_id = k
      · show some (mergeSync (upsertTx cats s t k) (mkSyncData cats u)) = _
        rw [upsertTx, putTxData]
        have hid : (mkSyncData cats t).transaction_id = t.transaction_id := rfl
        rw [hid, if_pos hk, hk, mergeSync_collapse]
      · show some (mergeSync (upsertTx cats s t k) (mkSyncData cats u)) = _
        rw [upsertTx, putTxData]
        have hid : (mkSyncData cats t).transaction_id = t.transaction_id := rfl
        rw [hid, if_neg hk]
    | none =>
      have hl2 : lastWith (t :: ts) k
          = if t.transaction_id = k then some t else none := by rw [lastWith, hl]
      rw [hl2]
      show upsertTx cats s t k = _
      rw [upsertTx, putTxData]
      have hid : (mkSyncData cats t).transaction_id = t.transaction_id := rfl
      rw [hid]
      by_cases hk : t.transaction_id = k
      · rw [if_pos hk, if_pos hk, hk]
      · rw [if_neg hk, if_neg hk]

/-- C6: the added/modified upsert loop is idempotent — each record is written
by a merge-set keyed by the stable provider `transaction_id`, so replaying
the same delta list leaves the transaction store pointwise identical. -/
theorem c6_upsert_idempotent (cats : List Category) (s : TxStore)
    (added : List PlaidTx) :
    applyUpserts cats (applyUpserts cats s added) added = applyUpserts cats s added := by
  funext k
  rw [applyUpserts_apply, applyUpserts_apply]
  cases hl : lastWith added k with
  | none => rfl
  | some t =>
    exact congrArg some (mergeSync_collapse (s k) (mkSyncData cats t) (mkSyncData cats t))

/-- C2: the sync route queues every transaction merge-set, every removed
marker, and the cursor write on one single batch and commits exactly once —
on any error (missing link, provider failure mid-loop) the state, and in
particular the stored cursor, is exactly the input state with nothing
committed; on success the committed batches are precisely the one batch
holding all upserts, all removed markers, and the new cursor. -/
theorem c2_sync_commit_atomic (cats : List Category)
    (pages : List (Except SyncErr Page)) (s : SyncState) :
    (∀ e, (syncTransactionsRoute cats pages s).1 = Except.error e →
       (syncTransactionsRoute cats pages s).2.1 = s
       ∧ (syncTransactionsRoute cats pages s).2.2 = [])
    ∧ (∀ a m r cur, ¬s.tokens = none →
         syncLoop ([], [], []) pages = Except.ok (a, m, r, cur) →
         (syncTransactionsRoute cats pages s).2.2 = [buildSyncBatch cats a m r cur]
         ∧ (syncTransactionsRoute cats pages s).2.1
             = applyBatch s (buildSyncBatch cats a m r cur)) := by
  cases htok : s.tokens with
  | none =>
    refine ⟨fun e _ => ?_, fun a m r cur hne _ => absurd rfl hne⟩
    simp [syncTransactionsRoute, htok]
  | some tok =>
    cases hloop : syncLoop ([], [], []) pages with
    | error e' =>
      refine ⟨fun e _ => ?_, fun a m r cur _ hok => absurd hok (by simp)⟩
      simp [syncTransactionsRoute, htok, hloop]
    | ok quad =>
      obtain ⟨a', m', r', cur'⟩ := quad
      refine ⟨fun e he => ?_, fun a m r cur _ hok => ?_⟩
      · simp [syncTransactionsRoute, htok, hloop] at he
      · simp only [Except.ok.injEq, Prod.mk.injEq] at hok
        obtain ⟨rfl, rfl, rfl, rfl⟩ := hok
        simp [syncTransactionsRoute, htok, hloop]

/-- Discharges the hypotheses of `c2_sync_commit_atomic` at concrete inputs:
a provider failure on the second page leaves the state untouched with no
commit, and a one-page success commits the single combined batch. -/
theorem c2_sync_commit_atomic_witness :
    ((syncTransactionsRoute [] pagesFail s0).2.1 = s0
      ∧ (syncTransactionsRoute [] pagesFail s0).2.2 = [])
    ∧ ((syncTransactionsRoute [] pagesOk s0).2.2
          = [buildSyncBatch [] [ptx0] [] [str "r1"] (str "cur1")]
        ∧ (syncTransactionsRoute [] pagesOk s0).2.1
            = applyBatch s0 (buildSyncBatch [] [ptx0] [] [str "r1"] (str "cur1"))) :=
  ⟨(c2_sync_commit_atomic [] pagesFail s0).1 .upstream rfl,
   (c2_sync_commit_atomic [] pagesOk s0).2 [ptx0] [] [str "r1"] (str "cur1")
     (by decide) rfl⟩

/-- C8: `POST /budgets` for a user who already has any budget is rejected up
front with the conflict response, and the stored budget and category
collections are returned exactly unchanged — no record is created. -/
theorem c8_budget_conflict (s : BudgetState) (freshB : Str) (freshC : List Str)
    (bodyName : Str) (bodyCats : List NewCategoryBody) (h : ¬s.budgets = []) :
    createBudgetRoute s freshB freshC bodyName bodyCats = (.conflict, s) := by
  cases hb : s.budgets with
  | nil => exact absurd hb h
  | cons b bs => simp [createBudgetRoute, hb]

/-- Discharges the hypothesis of `c8_budget_conflict` on a user with one
existing budget. -/
theorem c8_budget_conflict_witness :
    createBudgetRoute s8 (str "b2") [] (str "Second") [] = (.conflict, s8) :=
  c8_budget_conflict s8 (str "b2") [] (str "Second") [] (by decide)

/-- C10: a removed marker merge-sets `removed = true` at the id — every other
document is untouched, an existing document keeps all its other fields, and a
missing document is created holding only the removed flag rather than being
skipped or failing. -/
theorem c10_removed_marker (s : TxStore) (id : Str) :
    (∀ k, ¬k = id → markRemovedOne s id k = s k)
    ∧ (∀ d, s id = some d →
         markRemovedOne s id id = some { d with removed := some true })
    ∧ (s id = none → markRemovedOne s id id = some removedOnlyDoc) := by
  refine ⟨fun k hk => ?_, fun d hd => ?_, fun hn => ?_⟩
  · rw [markRemovedOne, if_neg fun h => hk h.symm]
  · rw [markRemovedOne, if_pos rfl, hd]
    rfl
  · rw [markRemovedOne, if_pos rfl, hn]
    rfl

/-- Discharges the hypotheses of `c10_removed_marker` on a concrete store:
an unrelated id is untouched, the existing document keeps its fields, and a
marker at an unknown id creates the removed-only document. -/
theorem c10_removed_marker_witness :
    markRemovedOne st10 (str "t1") (str "t2") = st10 (str "t2")
    ∧ markRemovedOne st10 (str "t1") (str "t1")
        = some { doc10 with removed := some true }
    ∧ markRemovedOne st10 (str "t9") (str "t9") = some removedOnlyDoc :=
  ⟨(c10_removed_marker st10 (str "t1")).1 (str "t2") (by decide),
   (c10_removed_marker st10 (str "t1")).2.1 doc10 (by decide),
   (c10_removed_marker st10 (str "t9")).2.2 (by decide)⟩

theorem applyDelBatch_delTx (D : List Str) : ∀ s : AcctState,
    applyDelBatch s (D.map DelOp.delTx)
      = { s with txs := s.txs.filter fun p => decide (¬p.1 ∈ D) } := by
  induction D with
  | nil => intro s; simp [applyDelBatch]
  | cons d D ih =>
    intro s
    rw [List.map_cons, applyDelBatch, ih]
    show ({ s with
        txs := (s.txs.filter fun p => decide (¬p.1 = d)).filter
                 fun p => decide (¬p.1 ∈ D) } : AcctState) = _
    rw [List.filter_filter]
    congr 1
    apply List.filter_congr
    intro p _
    simp [List.mem_cons, not_or, Bool.and_comm]

theorem matching_ids_mem (l : List (Str × TxLite)) (aId : Str)
    (hn : (l.map Prod.fst).Nodup) (p : Str × TxLite) (hp : p ∈ l) :
    (p.1 ∈ (l.filter fun q => decide (q.2.account_id = aId)).map Prod.fst)
      ↔ p.2.account_id = aId := by
  constructor
  · intro h
    obtain ⟨q, hq, hq1⟩ := List.mem_map.mp h
    have hq' := List.mem_filter.mp hq
    have hqp : q = p := List.inj_on_of_nodup_map hn hq'.1 hp hq1
    have hqa : q.2.account_id = aId := of_decide_eq_true hq'.2
    rwa [hqp] at hqa
  · intro h
    exact List.mem_map.mpr ⟨p, List.mem_filter.mpr ⟨hp, decide_eq_true h⟩, rfl⟩

/-- C9 (amended): with `deleteTransactions = true`, the route removes exactly
the transactions whose `account_id` equals the deleted account — every other
transaction is unchanged — and removes the account record; but the writes are
not one atomic multi-delete: the transaction deletions form one committed
batch, and the account record is deleted by a separate second write. -/
theorem c9_cascade_delete (s : AcctState) (aId : Str) (d : AcctDoc)
    (hacct : lookupDoc s.accounts aId = some d)
    (hn : (s.txs.map Prod.fst).Nodup) :
    (deleteAccountRoute s aId true).1 = .deleted true
    ∧ (deleteAccountRoute s aId true).2.1.txs
        = s.txs.filter (fun p => decide (¬p.2.account_id = aId))
    ∧ (deleteAccountRoute s aId true).2.1.accounts
        = s.accounts.filter (fun p => decide (¬p.1 = aId))
    ∧ (deleteAccountRoute s aId true).2.2
        = [(s.txs.filter fun p => decide (p.2.account_id = aId)).map
             fun p => DelOp.delTx p.1,
           [DelOp.delAcct aId]] := by
  have hb1 : (s.txs.filter fun p => decide (p.2.account_id = aId)).map
        (fun p => DelOp.delTx p.1)
      = ((s.txs.filter fun p => decide (p.2.account_id = aId)).map Prod.fst).map
          DelOp.delTx := by
    rw [List.map_map]
    rfl
  have hroute : deleteAccountRoute s aId true
      = (.deleted true,
         applyDelCommits s
           [(s.txs.filter fun p => decide (p.2.account_id = aId)).map
              fun p => DelOp.delTx p.1,
            [DelOp.delAcct aId]],
         [(s.txs.filter fun p => decide (p.2.account_id = aId)).map
            fun p => DelOp.delTx p.1,
          [DelOp.delAcct aId]]) := by
    simp [deleteAccountRoute, hacct]
  have hfirst : applyDelBatch s
        ((s.txs.filter fun p => decide (p.2.account_id = aId)).map
          fun p => DelOp.delTx p.1)
      = { s with txs := s.txs.filter fun p => decide (¬p.2.account_id = aId) } := by
    rw [hb1, applyDelBatch_delTx]
    congr 1
    apply List.filter_congr
    intro p hp
    rw [decide_eq_decide]
    exact not_congr (matching_ids_mem s.txs aId hn p hp)
  have hstate : applyDelCommits s
        [(s.txs.filter fun p => decide (p.2.account_id = aId)).map
           fun p => DelOp.delTx p.1,
         [DelOp.delAcct aId]]
      = { accounts := s.accounts.filter fun p => decide (¬p.1 = aId)
          txs := s.txs.filter fun p => decide (¬p.2.account_id = aId) } := by
    show applyDelBatch (applyDelBatch s _) [DelOp.delAcct aId] = _
    rw [hfirst]
    rfl
  rw [hroute, hstate]
  refine ⟨rfl, ?_, ?_, ?_⟩ <;> rfl

/-- C9 as frozen fails on the code: on a concrete state with one matching
transaction the route performs two separate commits — the transaction batch
and then the account delete — never a single atomic multi-delete containing
both. -/
theorem c9_cascade_counterexample :
    (deleteAccountRoute s9 (str "a1") true).2.2
        = [[DelOp.delTx (str "t1")], [DelOp.delAcct (str "a1")]]
    ∧ ¬(deleteAccountRoute s9 (str "a1") true).2.2.length = 1 := by decide

/-- Discharges the hypotheses of `c9_cascade_delete` on the concrete
two-transaction state. -/
theorem c9_cascade_delete_witness :
    (deleteAccountRoute s9 (str "a1") true).1 = DelResp.deleted true
    ∧ (deleteAccountRoute s9 (str "a1") true).2.1.txs
        = s9.txs.filter (fun p => decide (¬p.2.account_id = str "a1"))
    ∧ (deleteAccountRoute s9 (str "a1") true).2.1.accounts
        = s9.accounts.filter (fun p => decide (¬p.1 = str "a1"))
    ∧ (deleteAccountRoute s9 (str "a1") true).2.2
        = [(s9.txs.filter fun p => decide (p.2.account_id = str "a1")).map
             fun p => DelOp.delTx p.1,
           [DelOp.delAcct (str "a1")]] :=
  c9_cascade_delete s9 (str "a1") ⟨str "Checking"⟩ (by decide) (by decide)

theorem editUpdateDoc_amount (cats : List Category) (d : TxDoc) (b : EditBody)
    (v : Str) (hv : b.amount = some v) :
    (editUpdateDoc cats d b).amount = (jsParseInt v).map (fun i => (i : ℚ)) := by
  obtain ⟨nm, mn, am, dt, ct⟩ := b
  change am = some v at hv
  subst hv
  unfold editUpdateDoc
  dsimp only
  repeat' split
  all_goals rfl

/-- C7 fails on the code: the sync upsert persists the provider amount
multiplied by 100, but the edit endpoint persists the integer parse of the
request value with no conversion — resubmitting the provider's native amount
12.5 through the edit route stores 12 where sync stored 1250 — and a
provider amount with three decimals persists as the non-integer 2469/2. -/
theorem c7_amount_counterexample :
    (mkSyncData [] provTx).amount = 1250
    ∧ ((editTransactionRoute [] syncedStore7 (str "t1") editBody7).2 (str "t1")).map
        (fun d => d.amount) = some (some 12)
    ∧ ¬((12 : ℚ) = 1250)
    ∧ ¬∃ n : ℤ, (mkSyncData [] provTx3).amount = (n : ℤ) := by
  refine ⟨?_, ?_, by norm_num, ?_⟩
  · show (25/2 : ℚ) * 100 = 1250
    norm_num
  · show some (some ((12 : ℤ) : ℚ)) = some (some 12)
    norm_num
  · rintro ⟨n, hn⟩
    have h : (mkSyncData [] provTx3).amount = 2469/2 := by
      show (2469/200 : ℚ) * 100 = 2469/2
      norm_num
    rw [h, div_eq_iff (by norm_num : (2 : ℚ) ≠ 0)] at hn
    have h2 : (2469 : ℤ) = n * 2 := by exact_mod_cast hn
    omega

/-- C7 (amended): the dollars-to-cents conversion lives only in the sync
entry point — sync persists `amount = t.amount * 100` (with outflow/inflow
the signed variants), while the transaction-edit endpoint persists
`parseInt(amount)` of the raw request value, applying no unit conversion. -/
theorem c7_amount_entry_points :
    (∀ cats t, (mkSyncData cats t).amount = t.amount * 100
       ∧ (mkSyncData cats t).outflow
           = (if 0 < t.amount then some (t.amount * 100) else none)
       ∧ (mkSyncData cats t).inflow
           = (if t.amount < 0 then some (-t.amount * 100) else none))
    ∧ (∀ cats store id d b v, store id = some d → b.amount = some v →
         (editTransactionRoute cats store id b).2 id = some (editUpdateDoc cats d b)
         ∧ (editUpdateDoc cats d b).amount = (jsParseInt v).map (fun i => (i : ℚ))) := by
  refine ⟨fun cats t => ⟨rfl, rfl, rfl⟩, fun cats store id d b v hd hv => ⟨?_, ?_⟩⟩
  · rw [editTransactionRoute, hd]
    exact if_pos rfl
  · exact editUpdateDoc_amount cats d b v hv

/-- Discharges the hypotheses of `c7_amount_entry_points` on the concrete
synced store and the "12.5" edit request. -/
theorem c7_amount_entry_points_witness :
    (mkSyncData [] provTx).amount = provTx.amount * 100
    ∧ ((editTransactionRoute [] syncedStore7 (str "t1") editBody7).2 (str "t1")
         = some (editUpdateDoc [] (mergeSync none (mkSyncData [] provTx)) editBody7)
       ∧ (editUpdateDoc [] (mergeSync none (mkSyncData [] provTx)) editBody7).amount
           = (jsParseInt (str "12.5")).map (fun i => (i : ℚ))) :=
  ⟨(c7_amount_entry_points.1 [] provTx).1,
   c7_amount_entry_points.2 [] syncedStore7 (str "t1")
     (mergeSync none (mkSyncData [] provTx)) editBody7 (str "12.5") rfl rfl⟩

end PlaidFire
